import Mathlib

/-!
Verification of the Mark 2 device-face skill: brightness parsing and
conversion, the interaction/busy tracker, the idle/listening state
machine, and the solar auto-brightness scheduler, shallowly embedded
from `src/__init__.py`.  External collaborators (the message bus, the
`normalize` text normalizer, the locale brightness-name table, and the
astral solar computation) are modelled as parameters; everything else
follows the Python source line by line.
-/

namespace Mark2

/-! ## Python string primitives

List-of-characters implementations of the `str` operations the skill
uses: `in` (char and substring), `strip`, `replace`, and `int(...)`. -/

/-- Whitespace characters recognised by Python `str.strip()` (ASCII). -/
def isSpaceChar (c : Char) : Bool :=
  c = ' ' || c = '\t' || c = '\n' || c = '\r' || c = '\x0b' || c = '\x0c'

/-- Python `s.strip()`: remove leading and trailing whitespace. -/
def pyStrip (s : String) : String :=
  String.mk (((s.data.dropWhile isSpaceChar).reverse.dropWhile isSpaceChar).reverse)

/-- Python `c in s` for a single character. -/
def strContainsChar (s : String) (c : Char) : Bool :=
  s.data.contains c

/-- Does `pat` occur as a contiguous substring of `l`? -/
def hasSub (pat : List Char) : List Char → Bool
  | [] => List.isPrefixOf pat []
  | c :: cs => List.isPrefixOf pat (c :: cs) || hasSub pat cs

/-- Python `sub in s` for a substring. -/
def strContainsSub (s sub : String) : Bool :=
  hasSub sub.data s.data

/-- Fuelled worker for `pyReplace`: replace each occurrence of `pat`
(nonempty in all uses) by `rep`, scanning left to right. -/
def replFuel (pat rep : List Char) : Nat → List Char → List Char
  | _, [] => []
  | 0, s => s
  | fuel + 1, c :: cs =>
    if List.isPrefixOf pat (c :: cs) then
      rep ++ replFuel pat rep fuel (List.drop (pat.length - 1) cs)
    else
      c :: replFuel pat rep fuel cs

/-- Python `s.replace(pat, rep)`. -/
def pyReplace (s pat rep : String) : String :=
  String.mk (replFuel pat.data rep.data s.data.length s.data)

/-- Numeric value of a list of decimal digits. -/
def digitsVal (l : List Char) : Nat :=
  l.foldl (fun a c => a * 10 + (c.toNat - 48)) 0

/-- Worker for `pyInt` on an already-stripped character list. -/
def pyIntList : List Char → Option Int
  | [] => none
  | c :: cs =>
    if c = '-' then
      if cs ≠ [] ∧ cs.all Char.isDigit then some (-(digitsVal cs : Int)) else none
    else if c = '+' then
      if cs ≠ [] ∧ cs.all Char.isDigit then some ((digitsVal cs : Int)) else none
    else if (c :: cs).all Char.isDigit then some ((digitsVal (c :: cs) : Int)) else none

/-- Python `int(s)` on a string: strips whitespace, accepts an optional
sign followed by decimal digits; any other shape raises (here: `none`). -/
def pyInt (s : String) : Option Int :=
  pyIntList (pyStrip s).data

/-! ## Brightness parsing and conversion (`percent_to_level`,
`parse_brightness`, `set_eye_brightness` of `src/__init__.py`) -/

/-- `percent_to_level`: Python `int(float(percent)/float(100)*30)`.
For the integer inputs the skill feeds it, the float computation equals
truncating division of `percent * 30` by `100` (the exact value is
within `10⁻¹⁴` of `3·percent/10`, whose distance from any integer it is
not equal to is at least `1/10`). -/
def percent_to_level (percent : Int) : Int :=
  Int.tdiv (percent * 30) 100

/-- The percent spoken by `set_eye_brightness`: Python
`int(float(level)*float(100)/float(30))`, i.e. truncating division of
`level * 100` by `30` (exact for multiples of 3, and the fractional
part is otherwise 1/3 or 2/3, far from any integer). -/
def level_to_percent (level : Int) : Int :=
  Int.tdiv (level * 100) 30

/-- The part of `parse_brightness` that runs when the normalized text is
not in the named-brightness table: the `'%'` branch, the `'percent'`
branch, then the bare-integer interpretation. -/
def parse_brightness_body (b : String) : Option Int :=
  if strContainsChar b '%' then
    pyInt (pyStrip (pyReplace b "%" ""))
  else if strContainsSub b "percent" then
    pyInt (pyStrip (pyReplace b "percent" ""))
  else
    match pyInt b with
    | none => none
    | some i =>
      if i < 0 ∨ 100 < i then none
      else if i < 30 then some (i * 100 / 30)
      else some i

/-- `parse_brightness`, parameterised by the locale brightness-name
table (`self.brightness_dict`) and the `normalize` function, both
external to this file's source. -/
def parse_brightness (dict : String → Option Int) (norm : String → String)
    (b : String) : Option Int :=
  match dict (norm b) with
  | some v => some v
  | none => parse_brightness_body b

/-! ## Commands emitted to the external rendering/hardware collaborator -/

/-- A side effect requested of the enclosure/GUI: show a page, reset the
display, set the hardware eye brightness, or speak a dialog (with the
percent value spoken by `brightness.set`, `none` for dialogs without
data). -/
inductive Cmd where
  | showPage (page : String)
  | enclosureReset
  | eyesBrightness (level : Int)
  | speakDialog (dialog : String) (val : Option Int)
deriving DecidableEq

/-- `set_eye_brightness`: command the hardware level, and when `speak`
is true also speak the `brightness.set` confirmation with the percent
computed by `int(float(level)*float(100)/float(30))`. -/
def set_eye_brightness (level : Int) (speak : Bool) : List Cmd :=
  if speak then
    [Cmd.eyesBrightness level, Cmd.speakDialog "brightness.set" (some (level_to_percent level))]
  else
    [Cmd.eyesBrightness level]

/-! ## Interaction/busy tracker (`on_handler_started`,
`on_handler_complete`, `on_handler_interactingwithuser`,
`on_gui_page_show`) -/

/-- Python-dict operations on an association list with unique keys. -/
def dictGet (k : String) : List (String × Int) → Option Int
  | [] => none
  | (k1, v) :: rest => if k1 = k then some v else dictGet k rest

/-- `d[k] = v` on a unique-key association list. -/
def dictInsert (k : String) (v : Int) : List (String × Int) → List (String × Int)
  | [] => [(k, v)]
  | (k1, v1) :: rest =>
    if k1 = k then (k, v) :: rest else (k1, v1) :: dictInsert k v rest

/-- `del d[k]` on a unique-key association list. -/
def dictErase (k : String) : List (String × Int) → List (String × Int)
  | [] => []
  | (k1, v1) :: rest => if k1 = k then rest else (k1, v1) :: dictErase k rest

/-- The tracker's mutable fields: `self.has_show_page`,
`self.hourglass_info` and `self.interaction_id`. -/
structure TrackerState where
  has_show_page : Bool
  hourglass_info : List (String × Int)
  interaction_id : Int
deriving DecidableEq

/-- The initial tracker state set up in `__init__`. -/
def tracker0 : TrackerState :=
  { has_show_page := false, hourglass_info := [], interaction_id := 0 }

/-- The two name filters of `on_handler_started` / `on_handler_complete`:
handlers of this skill itself and of the background clock update are
ignored. -/
def excludedHandler (handler : String) : Bool :=
  strContainsSub handler "Mark2" || strContainsSub handler "TimeSkill.update_display"

/-- `on_handler_started`, exactly as the source executes: the
`time.sleep(0.25)` and the `self.gui.show_page("thinking.qml")` lines
are commented out there, so the snapshot comparison runs immediately
(and always succeeds) and no page request is ever emitted. -/
def on_handler_started (st : TrackerState) (handler : String) :
    TrackerState × List Cmd :=
  if excludedHandler handler then (st, [])
  else
    let st1 : TrackerState :=
      { st with has_show_page := false,
                hourglass_info := dictInsert handler st.interaction_id st.hourglass_info }
    if dictGet handler st1.hourglass_info = some st1.interaction_id then
      ({ st1 with hourglass_info := dictInsert handler (-1) st1.hourglass_info }, [])
    else
      (st1, [])

/-- `on_handler_interactingwithuser`: every user-facing output event
increments the interaction counter. -/
def on_handler_interactingwithuser (st : TrackerState) : TrackerState :=
  { st with interaction_id := st.interaction_id + 1 }

/-- `on_gui_page_show`: a page shown by a handler other than this skill
sets the page-shown flag. -/
def on_gui_page_show (st : TrackerState) (handler : String) : TrackerState :=
  if strContainsSub handler "Mark2" then st
  else { st with has_show_page := true }

/-- `on_handler_complete`: for a non-excluded handler, the Python
`try/except` catches the `KeyError` of a missing entry (state then
unchanged); a present entry gets `enclosure.reset()` when it carries the
busy sentinel `-1`, and is deleted in every present case. -/
def on_handler_complete (st : TrackerState) (handler : String) :
    TrackerState × List Cmd :=
  if excludedHandler handler then (st, [])
  else
    match dictGet handler st.hourglass_info with
    | none => (st, [])
    | some v =>
      ({ st with hourglass_info := dictErase handler st.hourglass_info },
       if v = -1 then [Cmd.enclosureReset] else [])

/-! ## Idle/listening state machine (`start_idle_check`,
`check_for_idle`, `handle_listener_started`) -/

/-- The idle machine's state: the `auto_dim_eyes` setting, the
`self.idle_count` tick counter, and whether the repeating `IdleCheck`
event is currently scheduled. -/
structure IdleState where
  auto_dim_eyes : Bool
  idle_count : Nat
  idleCheckArmed : Bool
deriving DecidableEq

/-- `start_idle_check`: cancel any existing `IdleCheck` event, then
schedule the repeating check if `auto_dim_eyes` is enabled. -/
def start_idle_check (st : IdleState) : IdleState :=
  let st1 : IdleState := { st with idleCheckArmed := false }
  if st1.auto_dim_eyes then { st1 with idleCheckArmed := true } else st1

/-- `check_for_idle`, one firing of the repeating `IdleCheck` event.
`activePage` is the external read
`self.enclosure.display_manager.get_active() != ''`.  A tick can only
occur while `idleCheckArmed` is true; the tick that pushes the count
past 2 disarms the timer. -/
def check_for_idle (st : IdleState) (activePage : Bool) : IdleState × List Cmd :=
  if ¬ st.auto_dim_eyes then
    ({ st with idleCheckArmed := false }, [])
  else if ¬ activePage then
    let n := st.idle_count + 1
    if n = 2 then
      ({ st with idle_count := n }, [Cmd.showPage "idle.qml"])
    else if 2 < n then
      ({ st with idle_count := n, idleCheckArmed := false }, [Cmd.showPage "resting.qml"])
    else
      ({ st with idle_count := n }, [])
  else
    ({ st with idle_count := 0 }, [])

/-- `handle_listener_started`: with auto-dim disabled, cancel the idle
timer; with auto-dim enabled and the machine resting (`idle_count > 2`),
reset the counter and restart the repeating check; in every case request
the listening overlay. -/
def handle_listener_started (st : IdleState) : IdleState × List Cmd :=
  if ¬ st.auto_dim_eyes then
    ({ st with idleCheckArmed := false }, [Cmd.showPage "listening.qml"])
  else if 2 < st.idle_count then
    (start_idle_check { st with idle_count := 0 }, [Cmd.showPage "listening.qml"])
  else
    (st, [Cmd.showPage "listening.qml"])

/-! ## Solar auto-brightness scheduler (`_get_auto_time`,
`schedule_brightness`, `handle_auto_brightness`,
`_handle_eye_brightness_event`, `_set_brightness`)

Instants are integer timestamps (seconds).  The astral computation of
`_get_auto_time` is external; it is modelled as a parameter
`solarInstant : Int → TimeOfDay → Int` giving, for the current moment,
the instant the library reports for each event that day.  The fixed
brightness levels 20/30/5 are in the source and are modelled here. -/

/-- The three named solar events. -/
inductive TimeOfDay where
  | Sunrise
  | Noon
  | Sunset
deriving DecidableEq

/-- The fixed hardware level `_get_auto_time` pairs with each event:
Sunrise 20 (high), Noon 30 (full), Sunset 5 (dim). -/
def eventLevel : TimeOfDay → Int
  | .Sunrise => 20
  | .Noon => 30
  | .Sunset => 5

/-- `_get_auto_time`'s entry for one event: the computed instant with
its fixed level. -/
def get_auto_time (solarInstant : Int → TimeOfDay → Int) (now : Int)
    (tod : TimeOfDay) : Int × Int :=
  (solarInstant now tod, eventLevel tod)

/-- A pending entry of the external event scheduler: the event name it
was scheduled under, the instant it will fire, and its
`(time_of_day, brightness)` payload. -/
structure SchedEntry where
  name : TimeOfDay
  fireTime : Int
  data : TimeOfDay × Int
deriving DecidableEq

/-- The brightness scheduler's state: the `self.auto_brightness` flag
and the pending named timers held by the external event scheduler. -/
structure BrightState where
  auto_brightness : Bool
  pending : List SchedEntry
deriving DecidableEq

/-- A fresh scheduler state: manual mode, nothing pending. -/
def bright0 : BrightState := { auto_brightness := false, pending := [] }

/-- `self.schedule_event(..., name=tod)`: the external scheduler simply
adds a pending entry under the name. -/
def schedule_event (st : BrightState) (tod : TimeOfDay) (t : Int)
    (data : TimeOfDay × Int) : BrightState :=
  { st with pending := st.pending ++ [⟨tod, t, data⟩] }

/-- `self.cancel_scheduled_event(tod)`: remove every pending entry under
the name (idempotent). -/
def cancel_scheduled_event (st : BrightState) (tod : TimeOfDay) : BrightState :=
  { st with pending := st.pending.filter (fun e => e.name ≠ tod) }

/-- `schedule_brightness`: if the instant is already past
(`now.timestamp > arw_d_time.timestamp`), shift it forward by 24 hours
(86400 s) before scheduling, else schedule it as is. -/
def schedule_brightness (now : Int) (st : BrightState) (tod : TimeOfDay)
    (pair : Int × Int) : BrightState :=
  if pair.1 < now then
    schedule_event st tod (pair.1 + 86400) (tod, pair.2)
  else
    schedule_event st tod pair.1 (tod, pair.2)

/-- One step of the nearest-event fold in `handle_auto_brightness`:
keep the new `(distance, level)` only when strictly closer. -/
def nearestAfter (acc : Nat × Int) (d : Nat) (lvl : Int) : Nat × Int :=
  if d < acc.1 then (d, lvl) else acc

/-- `handle_auto_brightness`: set `auto_brightness`, iterate over
Sunrise, Noon, Sunset in the dict's insertion order scheduling each, and
track the event whose original (unshifted) instant is numerically
closest to `now` (the loop starts from `(inf, None)`, so the first
comparison always succeeds); finally apply that event's level with
`speak=False`. -/
def handle_auto_brightness (solarInstant : Int → TimeOfDay → Int) (now : Int)
    (st : BrightState) : BrightState × List Cmd :=
  let st1 : BrightState := { st with auto_brightness := true }
  let d : TimeOfDay → Nat := fun tod => (now - (get_auto_time solarInstant now tod).1).natAbs
  let st2 := schedule_brightness now st1 .Sunrise (get_auto_time solarInstant now .Sunrise)
  let acc1 : Nat × Int := (d .Sunrise, eventLevel .Sunrise)
  let st3 := schedule_brightness now st2 .Noon (get_auto_time solarInstant now .Noon)
  let acc2 := nearestAfter acc1 (d .Noon) (eventLevel .Noon)
  let st4 := schedule_brightness now st3 .Sunset (get_auto_time solarInstant now .Sunset)
  let acc3 := nearestAfter acc2 (d .Sunset) (eventLevel .Sunset)
  (st4, set_eye_brightness acc3.2 false)

/-- `_handle_eye_brightness_event`: a firing with auto mode off is
discarded entirely; with auto mode on, cancel the event's name, apply
its level silently, recompute the event's solar time for the current
moment and reschedule it. -/
def handle_eye_brightness_event (solarInstant : Int → TimeOfDay → Int)
    (now : Int) (st : BrightState) (tod : TimeOfDay) (level : Int) :
    BrightState × List Cmd :=
  if st.auto_brightness then
    let st1 := cancel_scheduled_event st tod
    let pair := get_auto_time solarInstant now tod
    (schedule_brightness now st1 tod pair, set_eye_brightness level false)
  else
    (st, [])

/-- `_set_brightness`: unparseable text gets the not-found dialog; a
parse result of exactly `-1` invokes `handle_auto_brightness`; any other
result disables auto mode and sets (and speaks) the converted level. -/
def set_brightness (dict : String → Option Int) (norm : String → String)
    (solarInstant : Int → TimeOfDay → Int) (now : Int) (st : BrightState)
    (text : String) : BrightState × List Cmd :=
  match parse_brightness dict norm text with
  | none => (st, [Cmd.speakDialog "brightness.not.found.final" none])
  | some percent =>
    if percent = -1 then
      handle_auto_brightness solarInstant now st
    else
      ({ st with auto_brightness := false },
       set_eye_brightness (percent_to_level percent) true)

/-- An empty brightness-name table, for concrete evaluations. -/
def noDict : String → Option Int := fun _ => none

/-- The identity normalizer, for concrete evaluations. -/
def idNorm : String → String := fun s => s

/-- A constant solar-instant assignment, for concrete evaluations. -/
def solar0 : Int → TimeOfDay → Int := fun _ _ => 0

/-! ## Helper lemmas -/

lemma parse_brightness_of_named {dict : String → Option Int}
    {norm : String → String} {b : String} {v : Int}
    (h : dict (norm b) = some v) : parse_brightness dict norm b = some v := by
  simp [parse_brightness, h]

lemma parse_brightness_of_unnamed {dict : String → Option Int}
    {norm : String → String} {b : String} (h : dict (norm b) = none) :
    parse_brightness dict norm b = parse_brightness_body b := by
  simp [parse_brightness, h]

lemma parse_brightness_percent_sign {dict : String → Option Int}
    {norm : String → String} {b : String} (h : dict (norm b) = none)
    (hc : strContainsChar b '%' = true) :
    parse_brightness dict norm b = pyInt (pyStrip (pyReplace b "%" "")) := by
  rw [parse_brightness_of_unnamed h]
  simp [parse_brightness_body, hc]

lemma parse_brightness_percent_word {dict : String → Option Int}
    {norm : String → String} {b : String} (h : dict (norm b) = none)
    (hc : strContainsChar b '%' = false) (hp : strContainsSub b "percent" = true) :
    parse_brightness dict norm b = pyInt (pyStrip (pyReplace b "percent" "")) := by
  rw [parse_brightness_of_unnamed h]
  simp [parse_brightness_body, hc, hp]

lemma dictGet_of_not_mem {k : String} : ∀ {m : List (String × Int)},
    k ∉ m.map Prod.fst → dictGet k m = none := by
  intro m
  induction m with
  | nil => intro _; rfl
  | cons p rest ih =>
    intro h
    rw [List.map_cons, List.mem_cons] at h
    push_neg at h
    obtain ⟨k1, v⟩ := p
    simp only [dictGet]
    rw [if_neg fun he => h.1 he.symm]
    exact ih h.2

lemma dictGet_dictErase_self {k : String} : ∀ {m : List (String × Int)},
    (m.map Prod.fst).Nodup → dictGet k (dictErase k m) = none := by
  intro m
  induction m with
  | nil => intro _; rfl
  | cons p rest ih =>
    intro h
    rw [List.map_cons, List.nodup_cons] at h
    obtain ⟨k1, v⟩ := p
    by_cases he : k1 = k
    · subst he
      simp only [dictErase, if_pos rfl]
      exact dictGet_of_not_mem h.1
    · simp only [dictErase, if_neg he, dictGet, if_neg he]
      exact ih h.2

lemma filter_eq_of_filter_ne (tod : TimeOfDay) (l : List SchedEntry) :
    (l.filter (fun e => e.name ≠ tod)).filter (fun e => e.name = tod) = [] := by
  induction l with
  | nil => rfl
  | cons e rest ih =>
    by_cases h : e.name = tod
    · rw [List.filter_cons, if_neg (by simp [h])]
      exact ih
    · rw [List.filter_cons, if_pos (by simp [h]), List.filter_cons, if_neg (by simp [h])]
      exact ih

lemma filter_other_of_filter_ne {tod tod2 : TimeOfDay} (h : tod2 ≠ tod)
    (l : List SchedEntry) :
    (l.filter (fun e => e.name ≠ tod)).filter (fun e => e.name = tod2)
      = l.filter (fun e => e.name = tod2) := by
  induction l with
  | nil => rfl
  | cons e rest ih =>
    by_cases h1 : e.name = tod
    · have h2 : ¬ e.name = tod2 := by rw [h1]; exact fun hh => h hh.symm
      rw [List.filter_cons, if_neg (by simp [h1]), List.filter_cons, if_neg (by simp [h2])]
      exact ih
    · by_cases h2 : e.name = tod2
      · rw [List.filter_cons, if_pos (by simp [h1]), List.filter_cons, if_pos (by simp [h2]),
            List.filter_cons, if_pos (by simp [h2]), ih]
      · rw [List.filter_cons, if_pos (by simp [h1]), List.filter_cons, if_neg (by simp [h2]),
            List.filter_cons, if_neg (by simp [h2])]
        exact ih

lemma schedule_brightness_pending (now : Int) (st : BrightState)
    (tod : TimeOfDay) (pair : Int × Int) :
    ∃ t : Int, schedule_brightness now st tod pair
      = { st with pending := st.pending ++ [⟨tod, t, (tod, pair.2)⟩] } := by
  unfold schedule_brightness schedule_event
  by_cases h : pair.1 < now
  · exact ⟨pair.1 + 86400, by rw [if_pos h]⟩
  · exact ⟨pair.1, by rw [if_neg h]⟩

/-! ## Claim theorems -/

/-- Claim C1, evaluated on the code as written: a handler-start event
for the non-excluded handler `WikipediaSkill.handle_wiki` issues no page
request at all (both the 250 ms grace sleep and the
`show_page("thinking.qml")` call are commented out in the source), and
the handler entry is marked with the busy sentinel `-1` immediately,
with no grace period.  The claim instead requires exactly one
"thinking" page request when no user-facing output arrives within the
grace period. -/
theorem C1_no_thinking_request :
    (on_handler_started tracker0 "WikipediaSkill.handle_wiki").2 = [] ∧
    dictGet "WikipediaSkill.handle_wiki"
        (on_handler_started tracker0 "WikipediaSkill.handle_wiki").1.hourglass_info
      = some (-1) := by
  decide

/-- Claim C2: `parse_brightness` first looks the normalized text up in
the named-brightness table; otherwise it handles a `'%'` marker, then a
`'percent'` marker, by stripping and integer-parsing; otherwise it
parses a bare integer `i`, rejecting `i` outside `[0,100]`, converting
`i < 30` as a raw hardware level to percent (`i*100/30`), and returning
`30 ≤ i ≤ 100` directly; a failed integer parse yields `none` rather
than an error; and concretely `"50%" ↦ 50`, `"15" ↦ 50`, `"45" ↦ 45`,
`"150" ↦ none` whenever those strings are not named brightness terms. -/
theorem C2_parse_brightness_spec (dict : String → Option Int)
    (norm : String → String)
    (h50 : dict (norm "50%") = none) (h15 : dict (norm "15") = none)
    (h45 : dict (norm "45") = none) (h150 : dict (norm "150") = none) :
    (∀ b v, dict (norm b) = some v → parse_brightness dict norm b = some v) ∧
    (∀ b, dict (norm b) = none → strContainsChar b '%' = true →
      parse_brightness dict norm b = pyInt (pyStrip (pyReplace b "%" ""))) ∧
    (∀ b, dict (norm b) = none → strContainsChar b '%' = false →
      strContainsSub b "percent" = true →
      parse_brightness dict norm b = pyInt (pyStrip (pyReplace b "percent" ""))) ∧
    (∀ b i, dict (norm b) = none → strContainsChar b '%' = false →
      strContainsSub b "percent" = false → pyInt b = some i →
      (((i < 0 ∨ 100 < i) → parse_brightness dict norm b = none) ∧
       (0 ≤ i → i < 30 → parse_brightness dict norm b = some (i * 100 / 30)) ∧
       (30 ≤ i → i ≤ 100 → parse_brightness dict norm b = some i))) ∧
    (∀ b, dict (norm b) = none → strContainsChar b '%' = false →
      strContainsSub b "percent" = false → pyInt b = none →
      parse_brightness dict norm b = none) ∧
    parse_brightness dict norm "50%" = some 50 ∧
    parse_brightness dict norm "15" = some 50 ∧
    parse_brightness dict norm "45" = some 45 ∧
    parse_brightness dict norm "150" = none := by
  refine ⟨?_, ?_, ?_, ?_, ?_, ?_, ?_, ?_, ?_⟩
  · intro b v h
    exact parse_brightness_of_named h
  · intro b h hc
    exact parse_brightness_percent_sign h hc
  · intro b h hc hp
    exact parse_brightness_percent_word h hc hp
  · intro b i h hc hp hi
    have hb : parse_brightness dict norm b
        = (if i < 0 ∨ 100 < i then none
           else if i < 30 then some (i * 100 / 30) else some i) := by
      rw [parse_brightness_of_unnamed h]
      simp [parse_brightness_body, hc, hp, hi]
    refine ⟨?_, ?_, ?_⟩
    · intro hrange
      rw [hb, if_pos hrange]
    · intro h0 h30
      rw [hb, if_neg (by omega), if_pos h30]
    · intro h30 h100
      rw [hb, if_neg (by omega), if_neg (by omega)]
  · intro b h hc hp hi
    rw [parse_brightness_of_unnamed h]
    simp [parse_brightness_body, hc, hp, hi]
  · rw [parse_brightness_of_unnamed h50]
    decide
  · rw [parse_brightness_of_unnamed h15]
    decide
  · rw [parse_brightness_of_unnamed h45]
    decide
  · rw [parse_brightness_of_unnamed h150]
    decide

/-- Witness for C2 at the empty name table and identity normalizer. -/
theorem C2_parse_brightness_spec_witness :
    parse_brightness noDict idNorm "50%" = some 50 ∧
    parse_brightness noDict idNorm "15" = some 50 ∧
    parse_brightness noDict idNorm "45" = some 45 ∧
    parse_brightness noDict idNorm "150" = none := by
  have h := C2_parse_brightness_spec noDict idNorm rfl rfl rfl rfl
  exact ⟨h.2.2.2.2.2.1, h.2.2.2.2.2.2.1, h.2.2.2.2.2.2.2.1, h.2.2.2.2.2.2.2.2⟩

/-- Claim C3 is false as stated: invoking `handle_auto_brightness` twice
from a fresh state leaves two pending timers named `Sunrise` (the intent
handler schedules without cancelling first), and a timer firing can
reschedule its event to an instant less than 24 hours after the fired
instant (here the event fired at 1000000, the recomputed solar instant
999990 is past, and the rescheduled instant 1086390 is only 86390 s
later). -/
theorem C3_duplicate_timers_counterexample :
    (((handle_auto_brightness solar0 100
          (handle_auto_brightness solar0 100 bright0).1).1.pending.filter
        (fun e => e.name = TimeOfDay.Sunrise)).length = 2) ∧
    ((handle_eye_brightness_event (fun _ _ => 999990) 1000000
          { auto_brightness := true, pending := [] } TimeOfDay.Sunrise 20).1.pending
        = [⟨TimeOfDay.Sunrise, 1086390, (TimeOfDay.Sunrise, 20)⟩] ∧
      (1086390 : Int) < 1000000 + 86400) := by
  decide

/-- Claim C3 amended: only the timer-firing path cancels-then-
reschedules.  A solar timer firing with auto mode on cancels every
pending timer under its own name before scheduling the recomputed
instant, so after the firing exactly one timer is pending under that
name, and timers under other names are untouched.  The
`handle_auto_brightness` path schedules without cancelling, and the
rescheduled instant (the freshly recomputed solar time, shifted +24h
only when already past) need not be 24 hours after the fired one. -/
theorem C3_firing_cancels_then_reschedules (solarInstant : Int → TimeOfDay → Int)
    (now : Int) (st : BrightState) (tod : TimeOfDay) (level : Int)
    (h : st.auto_brightness = true) :
    ((handle_eye_brightness_event solarInstant now st tod level).1.pending.filter
        (fun e => e.name = tod)).length = 1 ∧
    (∀ tod2, tod2 ≠ tod →
      (handle_eye_brightness_event solarInstant now st tod level).1.pending.filter
          (fun e => e.name = tod2)
        = st.pending.filter (fun e => e.name = tod2)) := by
  obtain ⟨t, ht⟩ := schedule_brightness_pending now (cancel_scheduled_event st tod)
    tod (get_auto_time solarInstant now tod)
  have hev : (handle_eye_brightness_event solarInstant now st tod level).1
      = schedule_brightness now (cancel_scheduled_event st tod) tod
          (get_auto_time solarInstant now tod) := by
    unfold handle_eye_brightness_event
    rw [if_pos (by rw [h])]
  rw [hev, ht]
  unfold cancel_scheduled_event
  constructor
  · dsimp only
    rw [List.filter_append, filter_eq_of_filter_ne]
    simp
  · intro tod2 h2
    dsimp only
    rw [List.filter_append, filter_other_of_filter_ne h2]
    rw [List.filter_cons, if_neg (by simp; exact fun hh => h2 hh.symm)]
    simp

/-- Witness for the amended C3 at a concrete firing. -/
theorem C3_firing_cancels_then_reschedules_witness :
    ((handle_eye_brightness_event solar0 0
        { auto_brightness := true, pending := [] } TimeOfDay.Sunrise 20).1.pending.filter
      (fun e => e.name = TimeOfDay.Sunrise)).length = 1 :=
  (C3_firing_cancels_then_reschedules solar0 0
    { auto_brightness := true, pending := [] } TimeOfDay.Sunrise 20 rfl).1

/-- Claim C4 is false as stated: `percent_to_level` is not a left
inverse of `level_to_percent` on all hardware levels 0..30; at level 1,
`level_to_percent 1 = 3` and `percent_to_level 3 = 0 ≠ 1`. -/
theorem C4_inverse_counterexample :
    ¬ (∀ level : Int, 0 ≤ level → level ≤ 30 →
        percent_to_level (level_to_percent level) = level) := fun h =>
  absurd (h 1 (by decide) (by decide)) (by decide)

/-- Claim C4 amended: `percent_to_level` maps percent 0..100 to
`⌊percent*30/100⌋` in 0..30 and `level_to_percent` maps level 0..30 to
`⌊level*100/30⌋` in 0..100, but the round trip
`percent_to_level (level_to_percent level) = level` holds exactly for
the levels divisible by 3, not for every level in 0..30. -/
theorem C4_conversion_contract :
    (∀ p : Int, 0 ≤ p → p ≤ 100 →
      percent_to_level p = p * 30 / 100 ∧
      0 ≤ percent_to_level p ∧ percent_to_level p ≤ 30) ∧
    (∀ l : Int, 0 ≤ l → l ≤ 30 →
      level_to_percent l = l * 100 / 30 ∧
      0 ≤ level_to_percent l ∧ level_to_percent l ≤ 100 ∧
      (percent_to_level (level_to_percent l) = l ↔ 3 ∣ l)) := by
  constructor
  · intro p h0 h1
    interval_cases p <;> decide
  · intro l h0 h1
    interval_cases l <;> decide

/-- Witness for the amended C4 at percent 50 and level 15. -/
theorem C4_conversion_contract_witness :
    (percent_to_level 50 = 50 * 30 / 100 ∧
      0 ≤ percent_to_level 50 ∧ percent_to_level 50 ≤ 30) ∧
    (percent_to_level (level_to_percent 15) = 15 ↔ 3 ∣ (15 : Int)) :=
  ⟨C4_conversion_contract.1 50 (by decide) (by decide),
   (C4_conversion_contract.2 15 (by decide) (by decide)).2.2.2⟩

/-- Claim C5: from the Active state (`idle_count = 0`) with auto-dim on
and no overlay active, the first idle tick sets the count to 1 with no
page change and the timer still armed, the second tick shows the
"idle" page, the third tick shows the "resting" page and disarms the
periodic timer, so no fourth tick can fire. -/
theorem C5_idle_escalation (st : IdleState) (hdim : st.auto_dim_eyes = true)
    (harm : st.idleCheckArmed = true) (hcount : st.idle_count = 0) :
    (check_for_idle st false).1.idle_count = 1 ∧
    (check_for_idle st false).2 = [] ∧
    (check_for_idle st false).1.idleCheckArmed = true ∧
    (check_for_idle (check_for_idle st false).1 false).2
      = [Cmd.showPage "idle.qml"] ∧
    (check_for_idle (check_for_idle st false).1 false).1.idleCheckArmed = true ∧
    (check_for_idle (check_for_idle (check_for_idle st false).1 false).1 false).2
      = [Cmd.showPage "resting.qml"] ∧
    (check_for_idle (check_for_idle (check_for_idle st false).1 false).1
        false).1.idleCheckArmed = false := by
  obtain ⟨a, b, c⟩ := st
  dsimp only at hdim harm hcount
  subst hdim harm hcount
  decide

/-- Witness for C5 from the concrete Active state. -/
theorem C5_idle_escalation_witness :
    (check_for_idle ⟨true, 0, true⟩ false).1.idle_count = 1 ∧
    (check_for_idle ⟨true, 0, true⟩ false).2 = [] ∧
    (check_for_idle ⟨true, 0, true⟩ false).1.idleCheckArmed = true ∧
    (check_for_idle (check_for_idle ⟨true, 0, true⟩ false).1 false).2
      = [Cmd.showPage "idle.qml"] ∧
    (check_for_idle (check_for_idle ⟨true, 0, true⟩ false).1 false).1.idleCheckArmed
      = true ∧
    (check_for_idle (check_for_idle (check_for_idle ⟨true, 0, true⟩ false).1
        false).1 false).2 = [Cmd.showPage "resting.qml"] ∧
    (check_for_idle (check_for_idle (check_for_idle ⟨true, 0, true⟩ false).1
        false).1 false).1.idleCheckArmed = false :=
  C5_idle_escalation ⟨true, 0, true⟩ rfl rfl rfl

lemma set_eye_brightness_silent (level : Int) :
    set_eye_brightness level false = [Cmd.eyesBrightness level] := rfl

lemma schedule_brightness_auto (now : Int) (st : BrightState) (tod : TimeOfDay)
    (pair : Int × Int) :
    (schedule_brightness now st tod pair).auto_brightness = st.auto_brightness := by
  unfold schedule_brightness schedule_event
  split_ifs <;> rfl

lemma handle_auto_brightness_sets_auto (solarInstant : Int → TimeOfDay → Int)
    (now : Int) (st : BrightState) :
    (handle_auto_brightness solarInstant now st).1.auto_brightness = true := by
  unfold handle_auto_brightness
  dsimp only
  rw [schedule_brightness_auto, schedule_brightness_auto, schedule_brightness_auto]

lemma handle_auto_brightness_cmds (solarInstant : Int → TimeOfDay → Int)
    (now : Int) (st : BrightState) :
    ∃ lvl : Int, (handle_auto_brightness solarInstant now st).2
      = [Cmd.eyesBrightness lvl] :=
  ⟨_, rfl⟩

/-- Claim C6: `handle_auto_brightness` applies, immediately and with no
spoken dialog, the brightness level of a solar event whose original
(unshifted) computed instant is numerically closest in absolute time to
`now` — even if that instant is already past. -/
theorem C6_auto_brightness_nearest (solarInstant : Int → TimeOfDay → Int)
    (now : Int) (st : BrightState) :
    ∃ tod : TimeOfDay,
      (handle_auto_brightness solarInstant now st).2
        = [Cmd.eyesBrightness (eventLevel tod)] ∧
      ∀ tod2 : TimeOfDay,
        (now - solarInstant now tod).natAbs ≤ (now - solarInstant now tod2).natAbs := by
  have hcmd : (handle_auto_brightness solarInstant now st).2
      = [Cmd.eyesBrightness
          (nearestAfter (nearestAfter
              ((now - solarInstant now .Sunrise).natAbs, eventLevel .Sunrise)
              ((now - solarInstant now .Noon).natAbs) (eventLevel .Noon))
            ((now - solarInstant now .Sunset).natAbs) (eventLevel .Sunset)).2] := rfl
  rw [hcmd]
  unfold nearestAfter
  split_ifs with h1 h2 h2
  · exact ⟨.Sunset, rfl, fun tod2 => by cases tod2 <;> omega⟩
  · exact ⟨.Noon, rfl, fun tod2 => by cases tod2 <;> omega⟩
  · exact ⟨.Sunset, rfl, fun tod2 => by cases tod2 <;> omega⟩
  · exact ⟨.Sunrise, rfl, fun tod2 => by cases tod2 <;> omega⟩

/-- Claim C7: a valid manual `_set_brightness` (parse succeeded with a
value other than `-1`) sets `auto_brightness` to false, and any solar
brightness timer firing while `auto_brightness` is false is discarded:
no command is emitted, no brightness applied, and the pending timers are
unchanged. -/
theorem C7_manual_set_disables_auto (dict : String → Option Int)
    (norm : String → String) (solarInstant : Int → TimeOfDay → Int)
    (now : Int) (st : BrightState) (text : String) (p : Int)
    (hp : parse_brightness dict norm text = some p) (hne : p ≠ -1) :
    (set_brightness dict norm solarInstant now st text).1.auto_brightness = false ∧
    (∀ st2 : BrightState, st2.auto_brightness = false → ∀ now2 tod level,
      handle_eye_brightness_event solarInstant now2 st2 tod level = (st2, [])) := by
  constructor
  · unfold set_brightness
    rw [hp]
    dsimp only
    rw [if_neg hne]
  · intro st2 h2 now2 tod level
    unfold handle_eye_brightness_event
    rw [if_neg (by simp [h2])]

/-- Witness for C7: manual "45" then a Noon timer firing. -/
theorem C7_manual_set_disables_auto_witness :
    (set_brightness noDict idNorm solar0 0
        { auto_brightness := true, pending := [] } "45").1.auto_brightness = false ∧
    handle_eye_brightness_event solar0 0 bright0 TimeOfDay.Noon 30 = (bright0, []) := by
  have h := C7_manual_set_disables_auto noDict idNorm solar0 0
    { auto_brightness := true, pending := [] } "45" 45 (by decide) (by decide)
  exact ⟨h.1, h.2 bright0 rfl 0 TimeOfDay.Noon 30⟩

/-- Claim C8: on a listening-start event, auto-dim disabled cancels the
idle timer; auto-dim enabled with `idle_count > 2` (resting) resets the
count to 0 and re-arms the periodic timer, after which two more
no-activity ticks are needed before the "idle" page shows again; and in
every case the "listening" overlay is requested. -/
theorem C8_listener_started (st : IdleState) :
    (st.auto_dim_eyes = false →
      handle_listener_started st
        = ({ st with idleCheckArmed := false }, [Cmd.showPage "listening.qml"])) ∧
    (st.auto_dim_eyes = true → 2 < st.idle_count →
      (handle_listener_started st).1.idle_count = 0 ∧
      (handle_listener_started st).1.idleCheckArmed = true ∧
      (check_for_idle (handle_listener_started st).1 false).2 = [] ∧
      (check_for_idle (handle_listener_started st).1 false).1.idle_count = 1 ∧
      (check_for_idle (check_for_idle (handle_listener_started st).1 false).1
          false).2 = [Cmd.showPage "idle.qml"]) ∧
    (handle_listener_started st).2 = [Cmd.showPage "listening.qml"] := by
  obtain ⟨a, b, c⟩ := st
  refine ⟨?_, ?_, ?_⟩
  · intro h
    dsimp only at h
    subst h
    simp [handle_listener_started]
  · intro h hc
    dsimp only at h hc
    subst h
    have hl : handle_listener_started ⟨true, b, c⟩
        = (⟨true, 0, true⟩, [Cmd.showPage "listening.qml"]) := by
      unfold handle_listener_started start_idle_check
      rw [if_neg (by simp), if_pos hc]
      exact rfl
    rw [hl]
    decide
  · unfold handle_listener_started
    split_ifs <;> rfl

/-- Witness for C8 from the concrete resting state. -/
theorem C8_listener_started_witness :
    (handle_listener_started ⟨true, 5, false⟩).1.idle_count = 0 ∧
    (handle_listener_started ⟨true, 5, false⟩).1.idleCheckArmed = true ∧
    (check_for_idle (handle_listener_started ⟨true, 5, false⟩).1 false).2 = [] ∧
    (check_for_idle (handle_listener_started ⟨true, 5, false⟩).1 false).1.idle_count
      = 1 ∧
    (check_for_idle (check_for_idle (handle_listener_started ⟨true, 5, false⟩).1
        false).1 false).2 = [Cmd.showPage "idle.qml"] ∧
    (handle_listener_started ⟨true, 5, false⟩).2 = [Cmd.showPage "listening.qml"] := by
  have h := C8_listener_started ⟨true, 5, false⟩
  have h2 := h.2.1 rfl (by decide)
  exact ⟨h2.1, h2.2.1, h2.2.2.1, h2.2.2.2.1, h2.2.2.2.2, h.2.2⟩

/-- Claim C9: `on_handler_complete` for a non-excluded handler id absent
from the activity map is a no-op that does not raise (the `KeyError` is
swallowed); when the id is present with the busy sentinel `-1` an
enclosure reset is requested (and only then); in every present case the
entry is deleted. -/
theorem C9_handler_complete (st : TrackerState) (handler : String)
    (hex : excludedHandler handler = false)
    (hnd : (st.hourglass_info.map Prod.fst).Nodup) :
    (dictGet handler st.hourglass_info = none →
      on_handler_complete st handler = (st, [])) ∧
    (∀ v, dictGet handler st.hourglass_info = some v →
      dictGet handler (on_handler_complete st handler).1.hourglass_info = none ∧
      (on_handler_complete st handler).2
        = (if v = -1 then [Cmd.enclosureReset] else [])) := by
  have hne : ¬ (excludedHandler handler = true) := by simp [hex]
  constructor
  · intro h
    unfold on_handler_complete
    rw [if_neg hne, h]
  · intro v h
    unfold on_handler_complete
    rw [if_neg hne, h]
    exact ⟨dictGet_dictErase_self hnd, rfl⟩

/-- Witness for C9: a present busy entry is reset and deleted. -/
theorem C9_handler_complete_witness :
    dictGet "A.b" (on_handler_complete ⟨false, [("A.b", -1)], 3⟩ "A.b").1.hourglass_info
      = none ∧
    (on_handler_complete ⟨false, [("A.b", -1)], 3⟩ "A.b").2 = [Cmd.enclosureReset] := by
  have h := (C9_handler_complete ⟨false, [("A.b", -1)], 3⟩ "A.b" (by decide)
    (by decide)).2 (-1) (by decide)
  exact ⟨h.1, by rw [h.2]; decide⟩

/-- Claim C10: an input carrying a `'%'` marker, or a `'percent'`
marker, that is not a named brightness term is stripped and
integer-parsed with no range check (`"150%" ↦ 150`, `"-1%" ↦ -1`,
`"150 percent" ↦ 150`, `"-1 percent" ↦ -1`), and `_set_brightness` on a
parse result of exactly `-1` invokes `handle_auto_brightness` — enabling
auto mode — rather than setting a manual level or speaking the not-found
dialog. -/
theorem C10_percent_parse_unchecked (dict : String → Option Int)
    (norm : String → String) (solarInstant : Int → TimeOfDay → Int)
    (now : Int) (st : BrightState)
    (h150 : dict (norm "150%") = none) (hm1 : dict (norm "-1%") = none)
    (h150p : dict (norm "150 percent") = none)
    (hm1p : dict (norm "-1 percent") = none) :
    parse_brightness dict norm "150%" = some 150 ∧
    parse_brightness dict norm "-1%" = some (-1) ∧
    parse_brightness dict norm "150 percent" = some 150 ∧
    parse_brightness dict norm "-1 percent" = some (-1) ∧
    (∀ b, dict (norm b) = none → strContainsChar b '%' = true →
      parse_brightness dict norm b = pyInt (pyStrip (pyReplace b "%" ""))) ∧
    (∀ b, dict (norm b) = none → strContainsChar b '%' = false →
      strContainsSub b "percent" = true →
      parse_brightness dict norm b = pyInt (pyStrip (pyReplace b "percent" ""))) ∧
    (∀ text, parse_brightness dict norm text = some (-1) →
      set_brightness dict norm solarInstant now st text
        = handle_auto_brightness solarInstant now st ∧
      (set_brightness dict norm solarInstant now st text).1.auto_brightness = true ∧
      Cmd.speakDialog "brightness.not.found.final" none
        ∉ (set_brightness dict norm solarInstant now st text).2) := by
  refine ⟨?_, ?_, ?_, ?_, ?_, ?_, ?_⟩
  · rw [parse_brightness_of_unnamed h150]
    decide
  · rw [parse_brightness_of_unnamed hm1]
    decide
  · rw [parse_brightness_of_unnamed h150p]
    decide
  · rw [parse_brightness_of_unnamed hm1p]
    decide
  · intro b h hc
    exact parse_brightness_percent_sign h hc
  · intro b h hc hp
    exact parse_brightness_percent_word h hc hp
  · intro text ht
    have hs : set_brightness dict norm solarInstant now st text
        = handle_auto_brightness solarInstant now st := by
      unfold set_brightness
      rw [ht]
      dsimp only
      rw [if_pos rfl]
    refine ⟨hs, ?_, ?_⟩
    · rw [hs]
      exact handle_auto_brightness_sets_auto solarInstant now st
    · rw [hs]
      obtain ⟨lvl, hl⟩ := handle_auto_brightness_cmds solarInstant now st
      rw [hl]
      simp

/-- Witness for C10 at the empty name table. -/
theorem C10_percent_parse_unchecked_witness :
    parse_brightness noDict idNorm "150%" = some 150 ∧
    parse_brightness noDict idNorm "-1%" = some (-1) ∧
    parse_brightness noDict idNorm "150 percent" = some 150 ∧
    parse_brightness noDict idNorm "-1 percent" = some (-1) ∧
    set_brightness noDict idNorm solar0 7 bright0 "-1%"
      = handle_auto_brightness solar0 7 bright0 := by
  have h := C10_percent_parse_unchecked noDict idNorm solar0 7 bright0 rfl rfl rfl rfl
  exact ⟨h.1, h.2.1, h.2.2.1, h.2.2.2.1, (h.2.2.2.2.2.2 "-1%" h.2.1).1⟩

end Mark2
